import Mathlib

/-!
Shallow embedding of the risk-analysis pipeline
(`src/camera_tool.py`, `src/meteo_tool.py`, `src/summary.py`).

Python dictionaries holding JSON scalars are modelled as association lists
over `String` keys; stateful code (in-place mutation of the detection
metadata, effects of model calls and image annotation) is modelled by
explicit state passing and effect records.  The language-model backends,
the PIL image library and file/JSON I/O are external collaborators: model
responses are oracle parameters, the bytes of images are irrelevant (only
the drawn rectangle coordinates and resized dimensions are modelled), and
file contents (detections metadata, weather JSON, directory walks) are
taken as already-parsed values.

The string constants reproduce the source files byte for byte, including
the mojibake sequences (e.g. `d√©tect√©`) literally present in
`camera_tool.py`.
-/

namespace RiskPipeline

/-- Scalar JSON value as found in the detection metadata dictionaries. -/
inductive JVal where
  | null : JVal
  | bool (b : Bool) : JVal
  | str (s : String) : JVal
  | num (q : ℚ) : JVal
deriving DecidableEq

/-- A Python dict with string keys and scalar JSON values. -/
abbrev PyDict := List (String × JVal)

/-- Python truthiness of a JSON scalar (`bool(v)`). -/
def jTruthy : JVal → Bool
  | JVal.null => false
  | JVal.bool b => b
  | JVal.str s => !s.isEmpty
  | JVal.num q => decide (q ≠ 0)

/-- Truthiness of `d.get(k)`: `None` (absent key) is falsy. -/
def jTruthyOpt : Option JVal → Bool
  | none => false
  | some v => jTruthy v

/-- Association-list lookup, first occurrence wins (Python `d.get(k)`). -/
def alookup {β : Type} : List (String × β) → String → Option β
  | [], _ => none
  | (k, v) :: rest, key => if k = key then some v else alookup rest key

/-- Association-list update (Python `d[k] = v`): replace the first binding
of the key if present, otherwise append a new binding. -/
def aset {β : Type} : List (String × β) → String → β → List (String × β)
  | [], key, v => [(key, v)]
  | (k, w) :: rest, key, v =>
    if k = key then (key, v) :: rest else (k, w) :: aset rest key v

/-- Embedding of `associate_risks` (camera_tool.py lines 110-138).
`other` is `None` or a dict; if either input is empty the list is returned
unchanged; otherwise, when `other.get("category") == "Risque"` and
`other.get("label")` is truthy, every object whose `label` is `"person"`
receives `obj["risque"] = other["label"]`. -/
def associate_risks (objects : List PyDict) (other : Option PyDict) : List PyDict :=
  match other with
  | none => objects
  | some o =>
    if o.isEmpty ∨ objects.isEmpty then objects
    else if alookup o "category" = some (JVal.str "Risque") ∧ jTruthyOpt (alookup o "label") = true then
      objects.map fun obj =>
        if alookup obj "label" = some (JVal.str "person") then
          aset obj "risque" ((alookup o "label").getD JVal.null)
        else obj
    else objects

/-- Per-image entry of the detections JSON: the `detections` key may be
absent (`none`), and the `other` key may be absent (`none`), present but
null (`some none`), or a dict (`some (some o)`). -/
structure ImageInfo where
  detections : Option (List PyDict)
  other : Option (Option PyDict)
deriving DecidableEq

/-- The detection-metadata dictionary loaded by `analyze_camera` from the
detections JSON file; the `images` key may be absent. -/
structure Metadata where
  images : Option (List (String × ImageInfo))
deriving DecidableEq

/-- Embedding of `metadata.get("images", {}).get(image_name, {})`:
an absent `images` key or absent filename key yields the empty info. -/
def infoOf (md : Metadata) (imageName : String) : ImageInfo :=
  (alookup (md.images.getD []) imageName).getD ⟨none, none⟩

/-- Models the in-place mutation performed by `associate_risks` on the
detection dicts reachable from the metadata: when the image entry and its
`detections` key exist, the processed (possibly stamped) object list is
the one the metadata now holds. -/
def writeBack (md : Metadata) (imageName : String) (objects : List PyDict) : Metadata :=
  match md.images with
  | none => md
  | some imgs =>
    match alookup imgs imageName with
    | none => md
    | some info =>
      match info.detections with
      | none => md
      | some _ => ⟨some (aset imgs imageName ⟨some objects, info.other⟩)⟩

/-- The fixed short-circuit line of `process_image` (camera_tool.py line
232), byte-for-byte including the mojibake of the source file. -/
def noOtherLine (imageName : String) : String :=
  "[" ++ imageName ++ "] Aucun risque d√©tect√© (aucune information 'other')."

/-- Observable outcome of one `process_image` call: the returned text,
the number of risk-description and regulatory model calls, the images
annotated, and the metadata state after the call. -/
structure ProcResult where
  text : String
  riskCalls : Nat
  regCalls : Nat
  annotated : List (String × List PyDict)
  metadata : Metadata
deriving DecidableEq

/-- Embedding of the inner `process_image` of `analyze_camera`
(camera_tool.py lines 226-262).  `llmResp` is the risk-description model
oracle (response text given the post-association objects) and `regResp`
the regulatory-advice oracle (given the objects and the initial risk
text); both are external backends. -/
def process_image (llmResp : List PyDict → String)
    (regResp : List PyDict → String → String)
    (md : Metadata) (imageName : String) : ProcResult :=
  match (infoOf md imageName).other with
  | some (some o) =>
    let objects := associate_risks ((infoOf md imageName).detections.getD []) (some o)
    let text := llmResp objects
    let advice := regResp objects text
    ⟨"[ " ++ imageName ++ "]\n" ++ text ++ "\nV√©rification r√©glementaire : " ++ advice ++ "\n",
      1, 1, [(imageName, objects)], writeBack md imageName objects⟩
  | _ => ⟨noOtherLine imageName, 0, 0, [], md⟩

/-- The camera summary header of `analyze_camera` (camera_tool.py line
272), byte-for-byte including the mojibake of the source file. -/
def cameraHeader (cameraName : String) : String :=
  "\n=== R√©sum√© " ++ cameraName ++ " ===\n"

/-- Embedding of the fan-in of `analyze_camera` (camera_tool.py lines
264-272): `blocks` are the per-image result texts indexed by the sorted
image list, and `completion` is the order in which the concurrent futures
complete (a permutation of the indices); results are appended in
completion order and joined under the header. -/
def analyze_camera_summary (cameraName : String) (blocks : List String)
    (completion : List Nat) : String :=
  cameraHeader cameraName ++
    String.intercalate "\n" (completion.filterMap fun i => blocks.get? i)

section Weather

variable {α : Type}

/-- Weather data for the fixed location id, as loaded from the weather
JSON (meteo_tool.py lines 22-34): the hourly time array and the three
metric sections, each a mapping from metric name to a time-aligned array
whose elements may be JSON null (`none`).  The scalar payload type `α`
and its string rendering are parameters: numeric formatting is performed
by Python's string conversion, an external concern. -/
structure WeatherData (α : Type) where
  time : List String
  forecast : List (String × List (Option α))
  air : List (String × List (Option α))
  aqi : List (String × List (Option α))

/-- Python list subscription `xs[i]` with negative-index wraparound;
`none` models an `IndexError`. -/
def pyGetItem {β : Type} (xs : List β) (i : Int) : Option β :=
  if 0 ≤ i then xs.get? i.toNat
  else if 0 ≤ (xs.length : Int) + i then xs.get? ((xs.length : Int) + i).toNat
  else none

/-- Python `list.index(x)`: index of the first occurrence, `none` models
the `ValueError` raised when the element is absent. -/
def pyListIndex (x : String) : List String → Option Nat
  | [] => none
  | y :: ys => if y = x then some 0 else (pyListIndex x ys).map (· + 1)

/-- Message of the `IndexError` raised by an out-of-range subscription. -/
def indexErrorMsg : String := "IndexError: list index out of range"

/-- Message of the `ValueError` raised by `hours.index(hour)` when the
requested hour is not in the time array. -/
def valueErrorMsg (hour : String) : String :=
  "ValueError: " ++ hour ++ " is not in list"

/-- Python subscription as an `Except`, raising `IndexError`. -/
def pyGetItemE {β : Type} (xs : List β) (i : Int) : Except String β :=
  match pyGetItem xs i with
  | some v => Except.ok v
  | none => Except.error indexErrorMsg

/-- Embedding of the `get_val` helper of `summarize_weather_conditions`
(meteo_tool.py lines 37-38): `source_dict.get(key, [None])[idx]`.  The
`ok` payload is the selected element, itself possibly null. -/
def get_val (idx : Int) (source_dict : List (String × List (Option α)))
    (key : String) : Except String (Option α) :=
  pyGetItemE ((alookup source_dict key).getD [none]) idx

/-- Python string conversion of a nullable value: `None` renders as the
four-character text `None`. -/
def pyRender (ρ : α → String) : Option α → String
  | none => "None"
  | some v => ρ v

/-- The f-string template of the weather summary (meteo_tool.py lines
41-51), with its literal four-space indentation and final `.strip()`. -/
def weatherText (t temp hum wind prec cloud aqiv pm oz : String) : String :=
  ("\n    Weather conditions at " ++ t ++ ":\n    - Temperature: " ++ temp ++
    " °C\n    - Humidity: " ++ hum ++ "%\n    - Wind Speed: " ++ wind ++
    " km/h\n    - Precipitation: " ++ prec ++ " mm\n    - Cloud Cover: " ++ cloud ++
    "%\n    - Air Quality Index (EAQI): " ++ aqiv ++
    "\n    - PM2.5 (Fine particles): " ++ pm ++
    " µg/m³\n    - Ozone (O₃): " ++ oz ++ " µg/m³\n    ").trim

/-- The body of the weather summary evaluated at a fixed index: the
timestamp subscription `hours[idx]` followed by the eight `get_val`
reads, in the evaluation order of the f-string. -/
def buildSummaryAt (ρ : α → String) (w : WeatherData α) (idx : Int) :
    Except String String := do
  let t ← pyGetItemE w.time idx
  let temp ← get_val idx w.forecast "temperature_2m"
  let hum ← get_val idx w.forecast "relativehumidity_2m"
  let wind ← get_val idx w.forecast "windspeed_10m"
  let prec ← get_val idx w.forecast "precipitation"
  let cloud ← get_val idx w.forecast "cloudcover"
  let aqiv ← get_val idx w.aqi "european_aqi"
  let pm ← get_val idx w.air "pm2_5"
  let oz ← get_val idx w.air "ozone"
  pure (weatherText t (pyRender ρ temp) (pyRender ρ hum) (pyRender ρ wind)
    (pyRender ρ prec) (pyRender ρ cloud) (pyRender ρ aqiv) (pyRender ρ pm)
    (pyRender ρ oz))

/-- Embedding of `summarize_weather_conditions` (meteo_tool.py lines
6-53): `idx = -1 if hour is None else hours.index(hour)`, then the
summary text is built at that index. -/
def summarize_weather_conditions (ρ : α → String) (w : WeatherData α)
    (hour : Option String) : Except String String :=
  match hour with
  | none => buildSummaryAt ρ w (-1)
  | some h =>
    match pyListIndex h w.time with
    | some i => buildSummaryAt ρ w (Int.ofNat i)
    | none => Except.error (valueErrorMsg h)

/-- A metric key is present in its section with an array aligned to
length `n` (the time-series alignment of the weather data model). -/
def keyAligned (n : Nat) (sec : List (String × List (Option α)))
    (key : String) : Bool :=
  match alookup sec key with
  | some xs => xs.length == n
  | none => false

/-- All eight metric keys read by the summarizer are present and aligned
with the time array. -/
def wellFormed (w : WeatherData α) : Bool :=
  keyAligned w.time.length w.forecast "temperature_2m" &&
  keyAligned w.time.length w.forecast "relativehumidity_2m" &&
  keyAligned w.time.length w.forecast "windspeed_10m" &&
  keyAligned w.time.length w.forecast "precipitation" &&
  keyAligned w.time.length w.forecast "cloudcover" &&
  keyAligned w.time.length w.aqi "european_aqi" &&
  keyAligned w.time.length w.air "pm2_5" &&
  keyAligned w.time.length w.air "ozone"

end Weather

section Report

/-- ASCII lowering of a filename's characters, modelling Python's
`str.lower` on the ASCII filenames of the image directories. -/
def lowerChars (f : String) : List Char := f.data.map Char.toLower

/-- Suffix test on character lists (Python `str.endswith`). -/
def charsEndsWith (xs suffix : List Char) : Bool :=
  decide (suffix.length ≤ xs.length) &&
    (List.drop (xs.length - suffix.length) xs == suffix)

/-- Python `f.lower().endswith(".jpg")` for a filename. -/
def isJpgFile (f : String) : Bool :=
  charsEndsWith (lowerChars f) ['.', 'j', 'p', 'g']

/-- Embedding of `os.path.join(root, f)` for the relative paths produced
by the directory walk. -/
def pathJoin (root f : String) : String :=
  if root = "" then f
  else if charsEndsWith root.data ['/'] then root ++ f
  else root ++ "/" ++ f

/-- Embedding of the annotated-image search of `generate_final_report`
(summary.py lines 81-86): the recursive `os.walk` is an external
filesystem collaborator, modelled by its result `walk` (one
`(root, files)` pair per visited directory); files ending in `.jpg`
case-insensitively are collected in walk order. -/
def walkJpgs (walk : List (String × List String)) : List String :=
  walk.flatMap fun rootFiles =>
    (rootFiles.2.filter fun f => isJpgFile f).map fun f =>
      pathJoin rootFiles.1 f

/-- The fixed sentence used when no annotated image was found
(summary.py line 108). -/
def noIllustrationLine : String := "Aucune illustration disponible."

/-- The Illustrations section body (summary.py line 108): a newline-joined
image link per found file, or the fixed sentence when none was found. -/
def illustrationsSection (imgs : List String) : String :=
  if imgs.isEmpty then noIllustrationLine
  else String.intercalate "\n" (imgs.map fun img => "- ![](" ++ img ++ ")")

/-- Python string conversion of the optional entry-camera summary:
`None` interpolates as the literal text `None`. -/
def pyOptStr : Option String → String
  | none => "None"
  | some s => s

/-- Report template segment before the synthesis (summary.py lines 92-104). -/
def reportLit1 : String :=
  "# Rapport d'analyse des risques sur le lieu de travail\n\n## Introduction\nCe rapport présente une analyse des risques détectés sur le lieu de travail à partir de données multi-modales (images, détections, météo, réglementation).\n\n## Données utilisées\n- Images panoramiques HD\n- Détections de personnes\n- Indications de risques \n- Météo\n- Cadre réglementaire\n\n## Synthèse des risques détectés\n"

/-- Report template segment between the synthesis and the Illustrations
section (summary.py lines 106-107). -/
def reportLit2 : String := "\n\n## Illustration des manquements\n"

/-- Report template segment between the Illustrations section and the
middle-camera summary (summary.py lines 109-112). -/
def reportLit3 : String :=
  "\n\n## Recommandations\nÀ partir des détections et du cadre réglementaire, il est recommandé d'examiner de près les zones signalées, notamment celles contenant des comportements à risque. Une vigilance accrue est aussi recommandée en cas de conditions météo défavorables.\n=== Camera_Milieu ===\n"

/-- Report template segment between the middle-camera and entry-camera
summaries (summary.py lines 114-115). -/
def reportLit4 : String := "\n\n=== Camera_Entree ===\n"

/-- Report template segment after the entry-camera summary (summary.py
lines 117-123). -/
def reportLit5 : String :=
  "\n\n## Conclusion\nCe rapport met en évidence les risques potentiels détectés automatiquement. Il est conseillé de procéder à une évaluation humaine pour compléter cette analyse.\n\n---\n*Ce rapport a été généré automatiquement par le système multi-agent d'analyse des risques.*\n"

/-- Embedding of the Markdown text written by `generate_final_report`
(summary.py lines 90-124).  The global synthesis is the output of a model
call (`generate_summary`), an external backend, taken as the `synthese`
parameter; the annotated-image walk result is the `walk` parameter. -/
def generate_final_report_text (synthese middle : String)
    (entry : Option String) (walk : List (String × List String)) : String :=
  reportLit1 ++ synthese ++ reportLit2 ++ illustrationsSection (walkJpgs walk) ++
    reportLit3 ++ middle ++ reportLit4 ++ pyOptStr entry ++ reportLit5

end Report

section Annotate

/-- Modelled from PIL (an external image library): `Image.thumbnail`
resizes in place to fit within the given box while preserving aspect
ratio, and never enlarges; the aspect-preserving side is rounded to the
nearest integer (at least 1).  Only the resulting dimensions are
modelled, in integer arithmetic. -/
def thumbnailFit (w h : Nat) : Nat × Nat :=
  if w ≤ 960 ∧ h ≤ 346 then (w, h)
  else if 960 * h ≤ 346 * w then
    (960, max 1 ((2 * 960 * h + w) / (2 * w)))
  else
    (max 1 ((2 * 346 * w + h) / (2 * h)), 346)

/-- Numeric value of a JSON scalar under Python multiplication by an
integer constant (booleans coerce to 0 or 1); `none` for the non-numeric
scalars on which the drawing call would not receive a number. -/
def jNum : JVal → Option ℚ
  | JVal.num q => some q
  | JVal.bool b => some (if b then 1 else 0)
  | _ => none

/-- One scaled corner coordinate of `annotate_image`
(camera_tool.py lines 91-94): `obj.get(key, 0) * scale`. -/
def bboxCoord (obj : PyDict) (key : String) (scale : ℚ) : Option ℚ :=
  match alookup obj key with
  | none => some (0 * scale)
  | some v => (jNum v).map (· * scale)

/-- The rectangle drawn for one detection (camera_tool.py lines 91-101):
corner coordinates are the normalized box fields multiplied by the fixed
constants 960 (x) and 346 (y). -/
def annotRect (obj : PyDict) : Option (ℚ × ℚ × ℚ × ℚ) := do
  let x1 ← bboxCoord obj "bounding_box_start_x" 960
  let y1 ← bboxCoord obj "bounding_box_start_y" 346
  let x2 ← bboxCoord obj "bounding_box_end_x" 960
  let y2 ← bboxCoord obj "bounding_box_end_y" 346
  pure (x1, y1, x2, y2)

/-- Observable geometry of `annotate_image` (camera_tool.py lines 76-101)
on an image of original dimensions `imgW × imgH`: the thumbnail-resized
dimensions and the rectangle drawn for each detection. -/
def annotate_image_draw (imgW imgH : Nat) (objects : List PyDict) :
    (Nat × Nat) × List (Option (ℚ × ℚ × ℚ × ℚ)) :=
  (thumbnailFit imgW imgH, objects.map annotRect)

end Annotate

section SpecSide

/-- The per-detection transformation described by the spec's risk
invariant, written from its words for comparison with `associate_risks`:
a detection labelled `person` gains a `risque` field equal to the
companion label exactly when the companion indicates category `Risque`
with a truthy (for strings: non-empty) label; every other detection is
unchanged. -/
def specRiskStamp (other : Option PyDict) (obj : PyDict) : PyDict :=
  match other with
  | none => obj
  | some o =>
    if alookup o "category" = some (JVal.str "Risque") ∧
        jTruthyOpt (alookup o "label") = true ∧
        alookup obj "label" = some (JVal.str "person") then
      aset obj "risque" ((alookup o "label").getD JVal.null)
    else obj

end SpecSide

section ExampleData

/-- Example detection dict: a person. -/
def objPerson : PyDict := [("label", JVal.str "person")]

/-- Example detection dict: not a person. -/
def objDog : PyDict := [("label", JVal.str "dog")]

/-- Example companion object indicating a risk. -/
def otherRisque : PyDict :=
  [("category", JVal.str "Risque"), ("label", JVal.str "chute")]

/-- Example metadata with one image holding a person detection and a
qualifying companion object. -/
def mdMut : Metadata :=
  ⟨some [("img1.jpg", ⟨some [objPerson], some (some otherRisque)⟩)]⟩

/-- Example metadata whose single image entry has a null `other` field. -/
def mdNoOther : Metadata := ⟨some [("img2.jpg", ⟨some [], some none⟩)]⟩

/-- Example weather data with two hours whose forecast section is missing
the `temperature_2m` key. -/
def wMissingTemp : WeatherData String :=
  ⟨["h0", "h1"],
   [("relativehumidity_2m", [some "80", some "81"]),
    ("windspeed_10m", [some "5", some "6"]),
    ("precipitation", [some "0", some "1"]),
    ("cloudcover", [some "10", some "20"])],
   [("pm2_5", [some "7", some "8"]), ("ozone", [some "30", some "31"])],
   [("european_aqi", [some "20", some "21"])]⟩

/-- Example weather data with two hours and all eight metric keys
present and aligned. -/
def wFull : WeatherData String :=
  ⟨["h0", "h1"],
   [("temperature_2m", [some "10", some "11"]),
    ("relativehumidity_2m", [some "80", some "81"]),
    ("windspeed_10m", [some "5", some "6"]),
    ("precipitation", [some "0", some "1"]),
    ("cloudcover", [some "10", some "20"])],
   [("pm2_5", [some "7", some "8"]), ("ozone", [some "30", some "31"])],
   [("european_aqi", [some "20", some "21"])]⟩

/-- Example detection dict with the four normalized bounding-box fields. -/
def objBox : PyDict :=
  [("bounding_box_start_x", JVal.num (1/2)),
   ("bounding_box_start_y", JVal.num (1/4)),
   ("bounding_box_end_x", JVal.num 1),
   ("bounding_box_end_y", JVal.num (3/4))]

end ExampleData

section Lemmas

theorem alookup_aset_self {β : Type} (xs : List (String × β)) (k : String) (v : β) :
    alookup (aset xs k v) k = some v := by
  induction xs with
  | nil => simp [aset, alookup]
  | cons p rest ih =>
    obtain ⟨k', w⟩ := p
    by_cases hk : k' = k
    · simp [aset, alookup, hk]
    · simp [aset, alookup, hk, ih]

theorem alookup_aset_ne {β : Type} (xs : List (String × β)) (k n : String) (v : β)
    (h : n ≠ k) : alookup (aset xs k v) n = alookup xs n := by
  have h' : k ≠ n := Ne.symm h
  induction xs with
  | nil => simp [aset, alookup, h']
  | cons p rest ih =>
    obtain ⟨k', w⟩ := p
    by_cases hk : k' = k
    · subst hk
      simp [aset, alookup, h']
    · simp [aset, alookup, hk, ih]

theorem process_image_no_other_eq (llmResp : List PyDict → String)
    (regResp : List PyDict → String → String) (md : Metadata) (imageName : String)
    (h : (infoOf md imageName).other = none ∨ (infoOf md imageName).other = some none) :
    process_image llmResp regResp md imageName =
      ⟨noOtherLine imageName, 0, 0, [], md⟩ := by
  rcases h with h | h <;> simp [process_image, h]

theorem associate_risks_none (objects : List PyDict) :
    associate_risks objects none = objects := rfl

theorem associate_risks_some (objects : List PyDict) (o : PyDict) :
    associate_risks objects (some o) =
      if o.isEmpty = true ∨ objects.isEmpty = true then objects
      else if alookup o "category" = some (JVal.str "Risque") ∧
          jTruthyOpt (alookup o "label") = true then
        objects.map fun obj =>
          if alookup obj "label" = some (JVal.str "person") then
            aset obj "risque" ((alookup o "label").getD JVal.null)
          else obj
      else objects := rfl

theorem filterMap_get_range {α : Type} (l : List α) :
    (List.range l.length).filterMap (fun i => l.get? i) = l := by
  induction l with
  | nil => rfl
  | cons a t ih =>
    have hc : ((fun i => (a :: t).get? i) ∘ Nat.succ) = fun i => t.get? i := by
      funext i; rfl
    rw [List.length_cons, List.range_succ_eq_map, List.filterMap_cons, List.filterMap_map, hc]
    simpa using ih

theorem pyGetItem_neg_one {β : Type} (xs : List β) (n : Nat) (hlen : xs.length = n)
    (hn : 0 < n) : pyGetItem xs (-1) = pyGetItem xs (Int.ofNat (n - 1)) := by
  unfold pyGetItem
  rw [hlen]
  have h1 : ¬ ((0 : Int) ≤ -1) := by omega
  have h2 : (0 : Int) ≤ (n : Int) + (-1) := by omega
  have h3 : (0 : Int) ≤ Int.ofNat (n - 1) := Int.ofNat_nonneg _
  have h4 : ((n : Int) + (-1)).toNat = n - 1 := by omega
  have h5 : (Int.ofNat (n - 1)).toNat = n - 1 := Int.toNat_ofNat _
  simp [h1, h2, h3, h4, h5]

theorem get_val_neg_one {α : Type} (sec : List (String × List (Option α))) (key : String)
    (n : Nat) (hn : 0 < n) (hk : keyAligned n sec key = true) :
    get_val (-1) sec key = get_val (Int.ofNat (n - 1)) sec key := by
  unfold keyAligned at hk
  rcases hlk : alookup sec key with _ | xs
  · rw [hlk] at hk; simp at hk
  · rw [hlk] at hk
    have hxs : xs.length = n := by simpa using hk
    unfold get_val pyGetItemE
    rw [hlk]
    simp only [Option.getD_some]
    rw [pyGetItem_neg_one xs n hxs hn]

end Lemmas

section ClaimTheorems

/-- C1: for every detection list and companion object, `associate_risks`
preserves the length of the list and maps each detection to exactly the
spec-side transformation: a `risque` field equal to the companion label
is added to exactly the `person`-labelled detections, and only when the
companion's category is `Risque` and its label is truthy (for string
labels: non-empty); every other detection, and every detection when the
condition fails, passes through unchanged. -/
theorem associate_risks_person_rule (objects : List PyDict) (other : Option PyDict) :
    (associate_risks objects other).length = objects.length ∧
    ∀ (i : Nat) (obj : PyDict), objects[i]? = some obj →
      (associate_risks objects other)[i]? = some (specRiskStamp other obj) := by
  cases other with
  | none =>
    refine ⟨rfl, fun i obj h => ?_⟩
    rw [associate_risks_none, h]
    simp [specRiskStamp]
  | some o =>
    rw [associate_risks_some]
    by_cases he : o.isEmpty = true ∨ objects.isEmpty = true
    · rw [if_pos he]
      refine ⟨rfl, fun i obj h => ?_⟩
      rw [h]
      congr 1
      rcases he with he | he
      · have ho : o = [] := by simpa using he
        subst ho
        simp [specRiskStamp, alookup]
      · have ho : objects = [] := by simpa using he
        subst ho
        simp at h
    · rw [if_neg he]
      by_cases hc : alookup o "category" = some (JVal.str "Risque") ∧
          jTruthyOpt (alookup o "label") = true
      · rw [if_pos hc]
        refine ⟨by simp, fun i obj h => ?_⟩
        rw [List.getElem?_map, h, Option.map_some']
        congr 1
        by_cases hp : alookup obj "label" = some (JVal.str "person")
        · simp [specRiskStamp, hc.1, hc.2, hp]
        · simp [specRiskStamp, hp]
      · rw [if_neg hc]
        refine ⟨rfl, fun i obj h => ?_⟩
        rw [h]
        congr 1
        simp only [specRiskStamp]
        rw [if_neg]
        intro hcontra
        exact hc ⟨hcontra.1, hcontra.2.1⟩

/-- Witness for C1 at a concrete input: a person detection is stamped and
a dog detection passes through. -/
theorem associate_risks_person_rule_witness :
    (associate_risks [objPerson, objDog] (some otherRisque))[0]? =
      some (specRiskStamp (some otherRisque) objPerson) ∧
    (associate_risks [objPerson, objDog] (some otherRisque))[1]? =
      some (specRiskStamp (some otherRisque) objDog) :=
  ⟨(associate_risks_person_rule [objPerson, objDog] (some otherRisque)).2 0 objPerson rfl,
   (associate_risks_person_rule [objPerson, objDog] (some otherRisque)).2 1 objDog rfl⟩

/-- C7: if the companion object is missing (`None`) or empty,
`associate_risks` returns the very same list unchanged. -/
theorem associate_risks_empty_unchanged (objects : List PyDict) (other : Option PyDict)
    (h : other = none ∨ other = some []) :
    associate_risks objects other = objects := by
  rcases h with h | h <;> subst h <;> simp [associate_risks]

/-- Witness for C7 at a concrete input. -/
theorem associate_risks_empty_unchanged_witness :
    associate_risks [objPerson] (some []) = [objPerson] :=
  associate_risks_empty_unchanged [objPerson] (some []) (Or.inr rfl)

/-- C6: when the processed image has no companion risk-context entry in
the metadata (the filename key is absent, so the empty info defaults, or
its `other` field is null), `process_image` returns the fixed
short-circuit line, performs no model calls, annotates nothing, and
leaves the metadata untouched. -/
theorem process_image_no_other_short_circuit (llmResp : List PyDict → String)
    (regResp : List PyDict → String → String) (md : Metadata) (imageName : String)
    (h : (infoOf md imageName).other = none ∨ (infoOf md imageName).other = some none) :
    process_image llmResp regResp md imageName =
      ⟨noOtherLine imageName, 0, 0, [], md⟩ :=
  process_image_no_other_eq llmResp regResp md imageName h

/-- Witness for C6 at concrete inputs: an image entry with a null
`other`, and a filename absent from the metadata. -/
theorem process_image_no_other_short_circuit_witness :
    process_image (fun _ => "r") (fun _ _ => "a") mdNoOther "img2.jpg" =
      ⟨noOtherLine "img2.jpg", 0, 0, [], mdNoOther⟩ ∧
    process_image (fun _ => "r") (fun _ _ => "a") mdNoOther "absent.jpg" =
      ⟨noOtherLine "absent.jpg", 0, 0, [], mdNoOther⟩ :=
  ⟨process_image_no_other_short_circuit _ _ mdNoOther "img2.jpg" (Or.inr rfl),
   process_image_no_other_short_circuit _ _ mdNoOther "absent.jpg" (Or.inl rfl)⟩

/-- C3 counterexample: processing an image whose detections contain a
person and whose companion indicates category `Risque` with a non-empty
label mutates the loaded metadata dictionary in place — the detection
entry reachable from the metadata is no longer equal to its state after
load. -/
theorem process_image_mutates_metadata :
    (process_image (fun _ => "r") (fun _ _ => "a") mdMut "img1.jpg").metadata ≠ mdMut := by
  decide

/-- C3 amended: the metadata is not read-only after load, but the
mutation is localized — every image entry other than the processed one is
unchanged, and the processed entry keeps its `other` field while its
`detections` (when present, with a present companion dict) become the
risk-associated list. -/
theorem process_image_metadata_localized (llmResp : List PyDict → String)
    (regResp : List PyDict → String → String) (md : Metadata) (imageName : String) :
    (∀ n, n ≠ imageName →
      alookup ((process_image llmResp regResp md imageName).metadata.images.getD []) n =
        alookup (md.images.getD []) n) ∧
    (∀ info, alookup (md.images.getD []) imageName = some info →
      alookup ((process_image llmResp regResp md imageName).metadata.images.getD [])
          imageName =
        some (match info.other, info.detections with
          | some (some o), some dets => ⟨some (associate_risks dets (some o)), info.other⟩
          | _, _ => info)) := by
  rcases hmi : md.images with _ | imgs
  · have hproc := process_image_no_other_eq llmResp regResp md imageName
      (Or.inl (by simp [infoOf, alookup, hmi]))
    rw [hproc]
    refine ⟨fun n hn => by simp [hmi], fun info hinfo => by simp [alookup] at hinfo⟩
  · rcases hli : alookup imgs imageName with _ | info
    · have hproc := process_image_no_other_eq llmResp regResp md imageName
        (Or.inl (by simp [infoOf, hmi, hli]))
      rw [hproc]
      refine ⟨fun n hn => by simp [hmi], fun info hinfo => by simp [hli] at hinfo⟩
    · have hinfoOf : infoOf md imageName = info := by
        simp [infoOf, hmi, hli]
      rcases hoth : info.other with _ | (_ | o)
      · have hproc := process_image_no_other_eq llmResp regResp md imageName
          (Or.inl (by rw [hinfoOf, hoth]))
        rw [hproc]
        refine ⟨fun n hn => by simp [hmi], fun info' hinfo' => ?_⟩
        simp only [Option.getD_some] at hinfo'
        rw [hli] at hinfo'
        cases hinfo'
        simp only [hmi, Option.getD_some]
        rw [hli, hoth]
      · have hproc := process_image_no_other_eq llmResp regResp md imageName
          (Or.inr (by rw [hinfoOf, hoth]))
        rw [hproc]
        refine ⟨fun n hn => by simp [hmi], fun info' hinfo' => ?_⟩
        simp only [Option.getD_some] at hinfo'
        rw [hli] at hinfo'
        cases hinfo'
        simp only [hmi, Option.getD_some]
        rw [hli, hoth]
      · have hproc : process_image llmResp regResp md imageName =
            ⟨"[ " ++ imageName ++ "]\n" ++
                llmResp (associate_risks (info.detections.getD []) (some o)) ++
                "\nV√©rification r√©glementaire : " ++
                regResp (associate_risks (info.detections.getD []) (some o))
                  (llmResp (associate_risks (info.detections.getD []) (some o))) ++ "\n",
              1, 1,
              [(imageName, associate_risks (info.detections.getD []) (some o))],
              writeBack md imageName
                (associate_risks (info.detections.getD []) (some o))⟩ := by
          simp only [process_image, hinfoOf, hoth]
        rw [hproc]
        rcases hdet : info.detections with _ | dets
        · have hwb : writeBack md imageName
              (associate_risks (Option.getD none []) (some o)) = md := by
            simp only [writeBack, hmi, hli, hdet]
          rw [hwb]
          refine ⟨fun n hn => by simp [hmi], fun info' hinfo' => ?_⟩
          simp only [Option.getD_some] at hinfo'
          rw [hli] at hinfo'
          cases hinfo'
          simp only [hmi, Option.getD_some]
          rw [hli, hoth, hdet]
        · have hwb : writeBack md imageName
              (associate_risks (Option.getD (some dets) []) (some o)) =
              ⟨some (aset imgs imageName
                ⟨some (associate_risks (Option.getD (some dets) []) (some o)),
                  info.other⟩)⟩ := by
            simp only [writeBack, hmi, hli, hdet]
          rw [hwb]
          constructor
          · intro n hn
            simp only [Option.getD_some]
            exact alookup_aset_ne imgs imageName n _ hn
          · intro info' hinfo'
            simp only [Option.getD_some] at hinfo'
            rw [hli] at hinfo'
            cases hinfo'
            simp only [Option.getD_some]
            rw [alookup_aset_self]
            rw [hoth, hdet]

/-- Witness for C3 amended at a concrete input: the non-processed entry
is untouched and the processed entry is the risk-associated update. -/
theorem process_image_metadata_localized_witness :
    alookup ((process_image (fun _ => "r") (fun _ _ => "a") mdMut
        "img1.jpg").metadata.images.getD []) "zz.jpg" =
      alookup (mdMut.images.getD []) "zz.jpg" ∧
    alookup ((process_image (fun _ => "r") (fun _ _ => "a") mdMut
        "img1.jpg").metadata.images.getD []) "img1.jpg" =
      some ⟨some (associate_risks [objPerson] (some otherRisque)),
        some (some otherRisque)⟩ := by
  obtain ⟨h1, h2⟩ := process_image_metadata_localized (fun _ => "r") (fun _ _ => "a")
    mdMut "img1.jpg"
  exact ⟨h1 "zz.jpg" (by decide), h2 ⟨some [objPerson], some (some otherRisque)⟩ rfl⟩

/-- C2 counterexample: with per-image blocks `a`, `b` (in sorted filename
order) and completion order reversed, the camera summary is not the
header followed by the blocks in sorted order. -/
theorem analyze_camera_summary_not_sorted_order :
    analyze_camera_summary "cam" ["a", "b"] [1, 0] ≠
      cameraHeader "cam" ++ String.intercalate "\n" ["a", "b"] := by
  decide

/-- C2 amended: the camera summary is the header followed by the
per-image text blocks joined in completion order; for any completion
order that is a permutation of the indices, the joined blocks are a
permutation of the sorted-order blocks, but the concatenation order
follows completion, not the sorted filename order. -/
theorem analyze_camera_summary_completion_order (cameraName : String)
    (blocks : List String) (completion : List Nat)
    (h : completion.Perm (List.range blocks.length)) :
    ∃ bs : List String, bs.Perm blocks ∧
      analyze_camera_summary cameraName blocks completion =
        cameraHeader cameraName ++ String.intercalate "\n" bs := by
  refine ⟨completion.filterMap (fun i => blocks.get? i), ?_, rfl⟩
  have hp := h.filterMap (fun i => blocks.get? i)
  rwa [filterMap_get_range] at hp

/-- Witness for C2 amended at a concrete input. -/
theorem analyze_camera_summary_completion_order_witness :
    ∃ bs : List String, bs.Perm ["a", "b"] ∧
      analyze_camera_summary "cam" ["a", "b"] [1, 0] =
        cameraHeader "cam" ++ String.intercalate "\n" bs :=
  analyze_camera_summary_completion_order "cam" ["a", "b"] [1, 0] (by decide)

/-- C4 counterexample: with the requested hour present at position 1 of
the time array and the `temperature_2m` key absent from the forecast
section, the summarizer raises an `IndexError` (subscription of the
one-element default `[None]` at index 1) instead of producing a null
placeholder in the summary text. -/
theorem summarize_missing_key_raises :
    summarize_weather_conditions (fun s => s) wMissingTemp (some "h1") =
      Except.error indexErrorMsg := by
  rfl

/-- C4 amended: `get_val` yields the null placeholder for an absent
metric key only when the effective index is -1 (no hour requested) or 0
(the requested hour is the first entry of the time array); for any other
index an absent key raises an `IndexError`.  (The summarizer reads eight,
not seven, named metrics this way.) -/
theorem get_val_missing_key {α : Type} (idx : Int)
    (sec : List (String × List (Option α))) (key : String)
    (hmiss : alookup sec key = none) :
    get_val idx sec key =
      if idx = -1 ∨ idx = 0 then Except.ok none
      else Except.error indexErrorMsg := by
  unfold get_val pyGetItemE pyGetItem
  rw [hmiss]
  simp only [Option.getD_none]
  by_cases h0 : idx = 0
  · subst h0; simp
  · by_cases hm1 : idx = -1
    · subst hm1; simp
    · have hcond : ¬ (idx = -1 ∨ idx = 0) := by tauto
      rw [if_neg hcond]
      by_cases hpos : 0 ≤ idx
      · rw [if_pos hpos]
        have hlen : ([(none : Option α)]).length ≤ idx.toNat := by
          simp only [List.length_singleton]
          omega
        rw [List.get?_eq_none.mpr hlen]
      · rw [if_neg hpos]
        have hneg : ¬ ((0 : Int) ≤ (([(none : Option α)].length : Int) + idx)) := by
          simp only [List.length_singleton]
          omega
        rw [if_neg hneg]

/-- Witness for C4 amended at concrete inputs: index 2 with an absent key
raises, index -1 and 0 yield the placeholder. -/
theorem get_val_missing_key_witness :
    get_val 2 ([] : List (String × List (Option String))) "temperature_2m" =
      Except.error indexErrorMsg ∧
    get_val (-1) ([] : List (String × List (Option String))) "temperature_2m" =
      Except.ok none := by
  have ha := get_val_missing_key 2 ([] : List (String × List (Option String)))
    "temperature_2m" rfl
  have hb := get_val_missing_key (-1) ([] : List (String × List (Option String)))
    "temperature_2m" rfl
  exact ⟨by simpa using ha, by simpa using hb⟩

/-- C5: the summarizer uses the index of the first occurrence of an
explicitly requested hour in the time array, fails with a `ValueError`
when the requested hour is absent, and with no hour given selects index
-1, which on a non-empty, well-formed data set is the last hour's index,
so the summary reports the last entry's timestamp and field values. -/
theorem summarize_weather_hour_selection {α : Type} (ρ : α → String)
    (w : WeatherData α) (hr : String) :
    (∀ i, pyListIndex hr w.time = some i →
      summarize_weather_conditions ρ w (some hr) = buildSummaryAt ρ w (Int.ofNat i)) ∧
    (pyListIndex hr w.time = none →
      summarize_weather_conditions ρ w (some hr) = Except.error (valueErrorMsg hr)) ∧
    (w.time ≠ [] → wellFormed w = true →
      summarize_weather_conditions ρ w none =
        buildSummaryAt ρ w (Int.ofNat (w.time.length - 1))) := by
  refine ⟨fun i hi => ?_, fun hn => ?_, fun hne hwf => ?_⟩
  · simp [summarize_weather_conditions, hi]
  · simp [summarize_weather_conditions, hn]
  · have hlen : 0 < w.time.length := List.length_pos.mpr hne
    have htime : pyGetItemE w.time (-1) =
        pyGetItemE w.time (Int.ofNat (w.time.length - 1)) := by
      unfold pyGetItemE
      rw [pyGetItem_neg_one w.time w.time.length rfl hlen]
    simp only [wellFormed, Bool.and_eq_true] at hwf
    obtain ⟨⟨⟨⟨⟨⟨⟨h1, h2⟩, h3⟩, h4⟩, h5⟩, h6⟩, h7⟩, h8⟩ := hwf
    show buildSummaryAt ρ w (-1) = buildSummaryAt ρ w (Int.ofNat (w.time.length - 1))
    unfold buildSummaryAt
    rw [htime,
      get_val_neg_one w.forecast "temperature_2m" w.time.length hlen h1,
      get_val_neg_one w.forecast "relativehumidity_2m" w.time.length hlen h2,
      get_val_neg_one w.forecast "windspeed_10m" w.time.length hlen h3,
      get_val_neg_one w.forecast "precipitation" w.time.length hlen h4,
      get_val_neg_one w.forecast "cloudcover" w.time.length hlen h5,
      get_val_neg_one w.aqi "european_aqi" w.time.length hlen h6,
      get_val_neg_one w.air "pm2_5" w.time.length hlen h7,
      get_val_neg_one w.air "ozone" w.time.length hlen h8]

/-- Witness for C5 at a concrete two-hour data set: explicit first hour,
absent hour, and the no-hour case hitting the last index. -/
theorem summarize_weather_hour_selection_witness :
    summarize_weather_conditions (fun s => s) wFull (some "h0") =
      buildSummaryAt (fun s => s) wFull (Int.ofNat 0) ∧
    summarize_weather_conditions (fun s => s) wFull (some "zz") =
      Except.error (valueErrorMsg "zz") ∧
    summarize_weather_conditions (fun s => s) wFull none =
      buildSummaryAt (fun s => s) wFull (Int.ofNat (wFull.time.length - 1)) := by
  obtain ⟨c1, -, c3⟩ := summarize_weather_hour_selection (fun s => s) wFull "h0"
  obtain ⟨-, c2, -⟩ := summarize_weather_hour_selection (fun s => s) wFull "zz"
  exact ⟨c1 0 rfl, c2 rfl, c3 (by decide) (by decide)⟩

/-- C8: when the recursive walk of the annotated-images directory finds
no `.jpg` file, the Illustrations section of the generated report is the
fixed "no illustration available" sentence; when it finds some, the
section is one image link per found file. -/
theorem final_report_illustrations (synthese middle : String) (entry : Option String)
    (walk : List (String × List String)) :
    (walkJpgs walk = [] →
      generate_final_report_text synthese middle entry walk =
        reportLit1 ++ synthese ++ reportLit2 ++ noIllustrationLine ++
          reportLit3 ++ middle ++ reportLit4 ++ pyOptStr entry ++ reportLit5) ∧
    (walkJpgs walk ≠ [] →
      generate_final_report_text synthese middle entry walk =
        reportLit1 ++ synthese ++ reportLit2 ++
          String.intercalate "\n"
            ((walkJpgs walk).map fun img => "- ![](" ++ img ++ ")") ++
          reportLit3 ++ middle ++ reportLit4 ++ pyOptStr entry ++ reportLit5) := by
  constructor
  · intro h
    unfold generate_final_report_text illustrationsSection
    rw [h]
    rfl
  · intro h
    unfold generate_final_report_text illustrationsSection
    rw [if_neg (by simpa [List.isEmpty_iff] using h)]

/-- Witness for C8 at concrete inputs: an empty walk and a walk finding
one `.jpg` file. -/
theorem final_report_illustrations_witness :
    generate_final_report_text "s" "m" none [] =
      reportLit1 ++ "s" ++ reportLit2 ++ noIllustrationLine ++
        reportLit3 ++ "m" ++ reportLit4 ++ pyOptStr none ++ reportLit5 ∧
    generate_final_report_text "s" "m" none [("r", ["x.jpg"])] =
      reportLit1 ++ "s" ++ reportLit2 ++
        String.intercalate "\n"
          ((walkJpgs [("r", ["x.jpg"])]).map fun img => "- ![](" ++ img ++ ")") ++
        reportLit3 ++ "m" ++ reportLit4 ++ pyOptStr none ++ reportLit5 :=
  ⟨(final_report_illustrations "s" "m" none []).1 rfl,
   (final_report_illustrations "s" "m" none [("r", ["x.jpg"])]).2 (by decide)⟩

/-- C9: when the entry-camera summary is omitted (`None`), the generated
report still contains the `=== Camera_Entree ===` heading followed by the
literal text `None` instead of omitting the section. -/
theorem final_report_entry_none (synthese middle : String)
    (walk : List (String × List String)) :
    ∃ pre post : String,
      generate_final_report_text synthese middle none walk =
        pre ++ "=== Camera_Entree ===\n" ++ "None" ++ post := by
  refine ⟨reportLit1 ++ synthese ++ reportLit2 ++ illustrationsSection (walkJpgs walk) ++
    reportLit3 ++ middle ++ "\n\n", reportLit5, ?_⟩
  have h4 : reportLit4 = "\n\n" ++ "=== Camera_Entree ===\n" := rfl
  unfold generate_final_report_text
  rw [h4]
  simp only [pyOptStr, String.append_assoc]

/-- C10: the rectangle drawn for a detection is computed from the
normalized bounding-box fields scaled by the fixed constants 960 and 346,
independently of the original image dimensions and hence of the
thumbnail-resized dimensions, which can be strictly smaller than the
960 by 346 box (a 1000 by 1000 image resizes to 346 by 346). -/
theorem annotate_rect_fixed_scale (objects : List PyDict)
    (imgW imgH imgW2 imgH2 : Nat) (obj : PyDict) (sx sy ex ey : ℚ)
    (h1 : alookup obj "bounding_box_start_x" = some (JVal.num sx))
    (h2 : alookup obj "bounding_box_start_y" = some (JVal.num sy))
    (h3 : alookup obj "bounding_box_end_x" = some (JVal.num ex))
    (h4 : alookup obj "bounding_box_end_y" = some (JVal.num ey)) :
    (annotate_image_draw imgW imgH objects).2 =
      (annotate_image_draw imgW2 imgH2 objects).2 ∧
    annotRect obj = some (sx * 960, sy * 346, ex * 960, ey * 346) ∧
    ((thumbnailFit 1000 1000).1 < 960 ∧ (thumbnailFit 1000 1000).2 ≤ 346) := by
  refine ⟨rfl, ?_, by decide⟩
  simp [annotRect, bboxCoord, h1, h2, h3, h4, jNum]

/-- Witness for C10 at a concrete detection and two image sizes. -/
theorem annotate_rect_fixed_scale_witness :
    (annotate_image_draw 1000 1000 [objBox]).2 =
      (annotate_image_draw 4000 1500 [objBox]).2 ∧
    annotRect objBox =
      some ((1 : ℚ)/2 * 960, (1 : ℚ)/4 * 346, (1 : ℚ) * 960, (3 : ℚ)/4 * 346) ∧
    ((thumbnailFit 1000 1000).1 < 960 ∧ (thumbnailFit 1000 1000).2 ≤ 346) :=
  annotate_rect_fixed_scale [objBox] 1000 1000 4000 1500 objBox
    ((1 : ℚ)/2) ((1 : ℚ)/4) 1 ((3 : ℚ)/4) rfl rfl rfl rfl

end ClaimTheorems

end RiskPipeline
